import Mathlib

/-!
Shallow embedding of the `respiratory_sounds` Python package
(`src/respiratory_sounds/{__init__,_tools,_patients,_recordings}.py`).

Python strings are embedded as `String`, Python `int` as `Int`, fallible
Python operations (index errors, failed `assert`, `ValueError`,
filesystem errors) as `Except PyErr`.  The filesystem touched by the
caching layer is an explicit state record.
-/

namespace RespiratorySounds

/-- Kinds of Python exceptions the embedded code can raise. -/
inductive PyErr where
  | indexError
  | assertionError
  | valueError
  | fileNotFoundError
  | fileExistsError
  | notADirectoryError
  | isADirectoryError
  deriving DecidableEq, Repr

/-- Auxiliary for `pySplitChar`: walks the character list, accumulating the
current field in reverse. -/
def pySplitCharAux (sep : Char) : List Char → List Char → List String
  | [], acc => [String.mk acc.reverse]
  | c :: cs, acc =>
      if c = sep then String.mk acc.reverse :: pySplitCharAux sep cs []
      else pySplitCharAux sep cs (c :: acc)

/-- Embedding of Python `s.split(sep)` for a single-character separator:
`"".split(sep) == [""]`, and empty fields between adjacent separators are
kept. -/
def pySplitChar (sep : Char) (s : String) : List String :=
  pySplitCharAux sep s.data []

/-- Auxiliary for `pySplitWs`: whitespace runs separate fields and empty
fields are discarded, matching Python `s.split()` with no argument. -/
def pySplitWsAux : List Char → List Char → List String
  | [], acc => if acc.isEmpty then [] else [String.mk acc.reverse]
  | c :: cs, acc =>
      if c.isWhitespace then
        if acc.isEmpty then pySplitWsAux cs []
        else String.mk acc.reverse :: pySplitWsAux cs []
      else pySplitWsAux cs (c :: acc)

/-- Embedding of Python `s.split()` (no argument): split on runs of
whitespace, no empty fields.  Note `line.strip().split() == line.split()`,
so the `strip()` in `_load_demographic_information` needs no separate
model. -/
def pySplitWs (s : String) : List String :=
  pySplitWsAux s.data []

/-- Digit-string value: `some n` when the character list is a nonempty
run of ASCII digits, else `none`. -/
def digitsVal : List Char → Option Nat
  | [] => none
  | l =>
      if l.all Char.isDigit then
        some (l.foldl (fun n c => 10 * n + (c.toNat - 48)) 0)
      else none

/-- Embedding of Python `int(s)` on strings: surrounding whitespace is
ignored, an optional sign precedes a nonempty digit run; anything else
raises `ValueError`, embedded as `none`. -/
def pyInt (s : String) : Option Int :=
  let core := ((s.data.dropWhile Char.isWhitespace).reverse.dropWhile
      Char.isWhitespace).reverse
  match core with
  | '+' :: ds => (digitsVal ds).map Int.ofNat
  | '-' :: ds => (digitsVal ds).map (fun n => -(Int.ofNat n))
  | ds => (digitsVal ds).map Int.ofNat

/-- Embedding of Python list indexing `xs[i]` with an `int` index:
nonnegative indices count from the front, negative indices from the back,
out-of-range is `none` (an `IndexError` at the use site). -/
def pyIndex {α : Type} (xs : List α) (i : Int) : Option α :=
  if 0 ≤ i then xs.get? i.toNat
  else if 0 ≤ i + xs.length then xs.get? (i + xs.length).toNat
  else none

/-- Embedding of a Python `for` loop (or comprehension, or pandas
column `map`) that applies a fallible operation to every element of a
list in order: the first raised exception aborts the whole traversal. -/
def mapExcept {γ δ : Type} (f : γ → Except PyErr δ) : List γ → Except PyErr (List δ)
  | [] => .ok []
  | a :: l =>
      match f a with
      | .error e => .error e
      | .ok b =>
          match mapExcept f l with
          | .error e => .error e
          | .ok bs => .ok (b :: bs)

/-- `_tools.diagnosis_class_name_mapping`: the fixed ordered list of the
K = 8 diagnosis names. -/
def diagnosis_class_name_mapping : List String :=
  ["Healthy", "Asthma", "Bronchiectasis", "Bronchiolitis",
   "COPD", "LRTI", "Pneumonia", "URTI"]

/-- `_tools.convert_diagnosis_class_to_name`: Python
`diagnosis_class_name_mapping()[label]`; list indexing raises
`IndexError` when out of range (negative labels index from the back). -/
def convert_diagnosis_class_to_name (label : Int) : Except PyErr String :=
  match pyIndex diagnosis_class_name_mapping label with
  | some s => .ok s
  | none => .error .indexError

/-- `_tools.convert_diagnosis_name_to_class`: Python
`diagnosis_class_name_mapping().index(diagnosis)`; `.index` raises
`ValueError` when the name is absent. -/
def convert_diagnosis_name_to_class (diagnosis : String) : Except PyErr Int :=
  match diagnosis_class_name_mapping.findIdx? (fun s => s = diagnosis) with
  | some i => .ok (Int.ofNat i)
  | none => .error .valueError

/-- `_recordings.RecordingMetaInfo`: the namedtuple holding the decoded
filename fields. -/
structure RecordingMetaInfo where
  patient_number : Int
  recording_index : String
  chest_location : String
  num_channels : Int
  recording_equipment : String
  deriving DecidableEq, Repr

/-- `_recordings._extract_meta_info_from_file_name`: split on `'_'`, read
and convert field 3 (`record_data_values[3] = int(1 if ... == "sc" else 2)`,
an `IndexError` when absent), then `assert len == 5`, then
`int(record_data_values[0])` (a `ValueError` when not numeric), and build
the namedtuple. -/
def extract_meta_info_from_file_name (file_name : String) :
    Except PyErr RecordingMetaInfo :=
  match (pySplitChar '_' file_name)[3]? with
  | none => .error .indexError
  | some f3 =>
      if (pySplitChar '_' file_name).length = 5 then
        match pyInt ((pySplitChar '_' file_name)[0]?.getD "") with
        | none => .error .valueError
        | some pn =>
            .ok ⟨pn, (pySplitChar '_' file_name)[1]?.getD "",
                 (pySplitChar '_' file_name)[2]?.getD "",
                 if f3 = "sc" then 1 else 2,
                 (pySplitChar '_' file_name)[4]?.getD ""⟩
      else .error .assertionError

/-- `_recordings._extract_file_name_without_extension_from_path`:
`os.path.split` keeps the part after the last `'/'`; `assert` it is
nonempty; split it on `'.'`; `assert` at least two parts; rejoin all but
the last with `'.'`. -/
def extract_file_name_without_extension_from_path (file_path : String) :
    Except PyErr String :=
  if (pySplitChar '/' file_path).getLastD "" = "" then .error .assertionError
  else
    if 2 ≤ (pySplitChar '.' ((pySplitChar '/' file_path).getLastD "")).length then
      .ok (String.intercalate "."
        (pySplitChar '.' ((pySplitChar '/' file_path).getLastD "")).dropLast)
    else .error .assertionError

/-- `_patients._load_patient_diagnoses`, with the two-column csv content
(already read by pandas) passed in as `(patient_number, diagnosis_name)`
rows: the diagnosis column is mapped through
`convert_diagnosis_name_to_class`, and a raised `ValueError` aborts the
whole load. -/
def load_patient_diagnoses (rows : List (Int × String)) :
    Except PyErr (List (Int × Int)) :=
  mapExcept (fun r =>
    match convert_diagnosis_name_to_class r.2 with
    | .ok c => .ok (r.1, c)
    | .error e => .error e) rows

instance {ε α : Type} [DecidableEq ε] [DecidableEq α] : DecidableEq (Except ε α) :=
  fun x y =>
    match x, y with
    | .ok a, .ok b =>
        if h : a = b then .isTrue (by rw [h]) else .isFalse (by simp [h])
    | .error e, .error f =>
        if h : e = f then .isTrue (by rw [h]) else .isFalse (by simp [h])
    | .ok _, .error _ => .isFalse (by simp)
    | .error _, .ok _ => .isFalse (by simp)

/-- `_patients.Patient`: the namedtuple of the six demographic columns.
The parser first builds it with all fields as split strings
(`Patient String`), then `pd.to_numeric` coerces `patient_number`
(`Patient Int`). -/
structure Patient (α : Type) where
  patient_number : α
  age : String
  sex : String
  adult_bmi : String
  child_weight : String
  child_height : String
  deriving DecidableEq, Repr

/-- The loop body of `_patients._load_demographic_information`:
`fields = line.strip().split()`, `assert len(fields) == 6`,
`Patient(*fields)`. -/
def load_demographic_line (line : String) : Except PyErr (Patient String) :=
  if (pySplitWs line).length = 6 then
    .ok ⟨(pySplitWs line)[0]?.getD "", (pySplitWs line)[1]?.getD "",
         (pySplitWs line)[2]?.getD "", (pySplitWs line)[3]?.getD "",
         (pySplitWs line)[4]?.getD "", (pySplitWs line)[5]?.getD ""⟩
  else .error .assertionError

/-- The `df['patient_number'] = pd.to_numeric(df['patient_number'])`
step of `_load_demographic_information`, per row: coerce the
`patient_number` field to an integer, a `ValueError` when not numeric. -/
def to_numeric_patient (p : Patient String) : Except PyErr (Patient Int) :=
  match pyInt p.patient_number with
  | some n => .ok ⟨n, p.age, p.sex, p.adult_bmi, p.child_weight, p.child_height⟩
  | none => .error .valueError

/-- `_patients._load_demographic_information`, with the file content
passed in as its list of lines: the loop over the lines builds the
string records, then the `patient_number` column is coerced to
integers. -/
def load_demographic_information (lines : List String) :
    Except PyErr (List (Patient Int)) :=
  match mapExcept load_demographic_line lines with
  | .error e => .error e
  | .ok patient_info => mapExcept to_numeric_patient patient_info

/-- End-to-end parse of a single demographic line: the loop body
followed by the numeric coercion of its `patient_number` field. -/
def parse_demographic_line (line : String) : Except PyErr (Patient Int) :=
  match load_demographic_line line with
  | .error e => .error e
  | .ok p => to_numeric_patient p

/-- One row of the table built by `_recordings.load_recordings`:
`pd.concat([recording_id, recording_meta_info, recording_data], axis=1)`.
The audio samples and the sample rate are opaque (`librosa.load` is an
external collaborator), so their types are parameters. -/
structure RecordingRow (α β : Type) where
  recording_id : Nat
  meta : RecordingMetaInfo
  audio_recording : α
  sample_rate : β
  deriving DecidableEq, Repr

/-- The assembly step of `_recordings.load_recordings`:
`num_recordings = len(recording_data)`, the chained
`assert num_recordings == len(recording_data) == len(recording_meta_info)`,
then the column-wise concat of `range(num_recordings)`, the meta table
and the data table. -/
def assemble_recordings {α β : Type} (recording_meta_info : List RecordingMetaInfo)
    (recording_data : List (α × β)) : Except PyErr (List (RecordingRow α β)) :=
  if recording_data.length = recording_data.length ∧
      recording_data.length = recording_meta_info.length then
    .ok (List.zipWith (fun i md => ⟨i, md.1, md.2.1, md.2.2⟩)
      (List.range recording_data.length) (recording_meta_info.zip recording_data))
  else .error .assertionError

/-- `_recordings.load_recordings`, with the discovered wav paths passed
in and audio decoding abstracted as `decode`:
`recording_data = _load_recording_data(paths)` decodes every file, and
`recording_meta_info = _load_recording_meta_info(paths)` parses every
file name (stem extraction then metadata extraction, the first raised
exception aborting the load); the two sub-tables are then assembled. -/
def load_recordings {α β : Type} (decode : String → α × β)
    (wav_file_paths : List String) : Except PyErr (List (RecordingRow α β)) :=
  match mapExcept (fun p =>
      match extract_file_name_without_extension_from_path p with
      | .error e => .error e
      | .ok stem => extract_meta_info_from_file_name stem) wav_file_paths with
  | .error e => .error e
  | .ok recording_meta_info =>
      assemble_recordings recording_meta_info (wav_file_paths.map decode)

/-- The filesystem state seen by the caching layer: the set of existing
directories and the existing files with their (deserialized) contents,
both keyed by the path's component list.  `V` is the opaque pickled
value (a dataframe in the source). -/
structure FS (V : Type) where
  dirs : List (List String)
  files : List (List String × V)
  deriving Repr

/-- Contents of the file at `p`, when one exists. -/
def lookupFile {V : Type} (fs : FS V) (p : List String) : Option V :=
  (fs.files.find? (fun e => e.1 == p)).map (fun e => e.2)

/-- Embedding of Python `os.path.exists`: a directory or a file lives at
the path. -/
def pathExists {V : Type} (fs : FS V) (p : List String) : Bool :=
  fs.dirs.contains p || fs.files.any (fun e => e.1 == p)

/-- Embedding of Python `os.mkdir`: a single-level directory creation.
It raises `FileExistsError` when the path exists, and fails —
`NotADirectoryError` or `FileNotFoundError` — when the parent is not an
existing directory; it never creates parents recursively. -/
def os_mkdir {V : Type} (fs : FS V) (p : List String) : Except PyErr (FS V) :=
  if pathExists fs p then .error .fileExistsError
  else if fs.dirs.contains p.dropLast then .ok ⟨p :: fs.dirs, fs.files⟩
  else if (lookupFile fs p.dropLast).isSome then .error .notADirectoryError
  else .error .fileNotFoundError

/-- `_tools.create_path_if_nonexistent`: `if not os.path.exists(path):
os.mkdir(path)`. -/
def create_path_if_nonexistent {V : Type} (fs : FS V) (p : List String) :
    Except PyErr (FS V) :=
  if pathExists fs p then .ok fs else os_mkdir fs p

/-- Embedding of `pd.to_pickle(value, path)`: overwrites the file at
`path`; fails when `path` is a directory or its parent directory does
not exist. -/
def pd_to_pickle {V : Type} (fs : FS V) (p : List String) (v : V) :
    Except PyErr (FS V) :=
  if fs.dirs.contains p then .error .isADirectoryError
  else if fs.dirs.contains p.dropLast then
    .ok ⟨fs.dirs, (p, v) :: fs.files.filter (fun e => !(e.1 == p))⟩
  else if (lookupFile fs p.dropLast).isSome then .error .notADirectoryError
  else .error .fileNotFoundError

/-- Embedding of `pd.read_pickle(path)`: the deserialized contents of
the file at `path`. -/
def pd_read_pickle {V : Type} (fs : FS V) (p : List String) : Except PyErr V :=
  match lookupFile fs p with
  | some v => .ok v
  | none => .error .fileNotFoundError

/-- `__init__.load_data_frame_with_cache(data_frame_loader, cache_path)`.
`data_frame_loader` is pure here, so it is passed as the value it would
compute; the `Nat` in the result counts how many times the loader was
invoked.  `cache_path_head = os.path.dirname(cache_path)` is the parent
component list. -/
def load_data_frame_with_cache {V : Type} (fs : FS V) (data_frame_loader : V)
    (cache_path : List String) : Except PyErr (FS V × V × Nat) :=
  if (lookupFile fs cache_path).isSome then
    match pd_read_pickle fs cache_path with
    | .ok v => .ok (fs, v, 0)
    | .error e => .error e
  else
    match create_path_if_nonexistent fs cache_path.dropLast with
    | .ok fs1 =>
        match pd_to_pickle fs1 cache_path data_frame_loader with
        | .ok fs2 => .ok (fs2, data_frame_loader, 1)
        | .error e => .error e
    | .error e => .error e

/-- `pyIndex` misses exactly outside `[-len, len)`. -/
lemma pyIndex_eq_none_iff {α : Type} (xs : List α) (i : Int) :
    pyIndex xs i = none ↔ i < -(xs.length : Int) ∨ (xs.length : Int) ≤ i := by
  unfold pyIndex
  by_cases h0 : 0 ≤ i
  · rw [if_pos h0, List.get?_eq_none]
    constructor
    · intro h
      right
      omega
    · intro h
      omega
  · rw [if_neg h0]
    by_cases h1 : 0 ≤ i + xs.length
    · rw [if_pos h1, List.get?_eq_none]
      constructor
      · intro h
        omega
      · intro h
        omega
    · simp only [if_neg h1, true_iff]
      omega

/-- `.index` misses on a name outside the list. -/
lemma findIdx?_eq_none_of_not_mem {l : List String} {s : String} (h : s ∉ l) :
    l.findIdx? (fun x => x = s) = none := by
  induction l with
  | nil => rfl
  | cons a l ih =>
    have ha : (a = s) = False := by
      simp only [eq_iff_iff, iff_false]
      intro he
      exact h (he ▸ List.mem_cons_self a l)
    simp [List.findIdx?_cons, ha, ih (fun hm => h (List.mem_cons_of_mem _ hm))]

/-- `convert_diagnosis_name_to_class` fails, with `ValueError`, on every
name outside the mapping. -/
lemma convert_name_not_mem {s : String} (h : s ∉ diagnosis_class_name_mapping) :
    convert_diagnosis_name_to_class s = .error .valueError := by
  unfold convert_diagnosis_name_to_class
  rw [findIdx?_eq_none_of_not_mem h]

/-- The only error `convert_diagnosis_name_to_class` raises is `ValueError`. -/
lemma convert_name_error_eq {s : String} {e : PyErr}
    (h : convert_diagnosis_name_to_class s = .error e) : e = .valueError := by
  unfold convert_diagnosis_name_to_class at h
  cases hf : diagnosis_class_name_mapping.findIdx? (fun x => x = s) with
  | none => rw [hf] at h; exact (Except.error.inj h).symm
  | some i => rw [hf] at h; cases h

/-- C3: both round trips of the diagnosis codec hold on all valid inputs:
`nameToClass (classToName i) = i` for every class label `i < 8`, and
`classToName (nameToClass x) = x` for every name `x` in the fixed list. -/
theorem c3_diagnosis_roundtrip :
    (∀ i : Nat, i < 8 →
      (convert_diagnosis_class_to_name (Int.ofNat i)).bind convert_diagnosis_name_to_class
        = .ok (Int.ofNat i)) ∧
    (∀ x ∈ diagnosis_class_name_mapping,
      (convert_diagnosis_name_to_class x).bind convert_diagnosis_class_to_name
        = .ok x) := by
  constructor
  · decide
  · decide

/-- C3 witness: the round trips at class 3 (`"Bronchiolitis"`) and at the
name `"COPD"`. -/
theorem c3_diagnosis_roundtrip_witness :
    (convert_diagnosis_class_to_name (Int.ofNat 3)).bind convert_diagnosis_name_to_class
      = .ok (Int.ofNat 3) ∧
    (convert_diagnosis_name_to_class "COPD").bind convert_diagnosis_class_to_name
      = .ok "COPD" :=
  ⟨c3_diagnosis_roundtrip.1 3 (by decide),
   c3_diagnosis_roundtrip.2 "COPD" (by decide)⟩

/-- C4 counterexample: `-1` is outside `[0, 8)`, yet
`convert_diagnosis_class_to_name (-1)` succeeds (Python negative
indexing), returning `"URTI"` instead of failing. -/
theorem c4_counterexample :
    ¬(0 ≤ (-1 : Int) ∧ (-1 : Int) < 8) ∧
    convert_diagnosis_class_to_name (-1) = .ok "URTI" :=
  ⟨by decide, rfl⟩

/-- C4 amended: `convert_diagnosis_class_to_name label` fails (with the
`IndexError` of Python list indexing) exactly when `label` is outside
`[-8, 8)`; labels in `[-8, 0)` are accepted by negative indexing. -/
theorem c4_class_to_name_range (label : Int) :
    convert_diagnosis_class_to_name label = .error .indexError ↔
      label < -8 ∨ 8 ≤ label := by
  have hlen : ((diagnosis_class_name_mapping.length : Nat) : Int) = 8 := rfl
  unfold convert_diagnosis_class_to_name
  cases hp : pyIndex diagnosis_class_name_mapping label with
  | none =>
    rw [pyIndex_eq_none_iff, hlen] at hp
    exact iff_of_true rfl (by omega)
  | some s =>
    have hne : ¬(pyIndex diagnosis_class_name_mapping label = none) := by
      rw [hp]
      simp
    rw [pyIndex_eq_none_iff, hlen] at hne
    exact iff_of_false (by simp) (by omega)

/-- C5: an unknown diagnosis name makes `convert_diagnosis_name_to_class`
fail with `ValueError`, and one unknown name anywhere in the diagnosis
table makes the whole `load_patient_diagnoses` fail rather than skip the
row. -/
theorem c5_unknown_diagnosis_fails :
    (∀ s : String, s ∉ diagnosis_class_name_mapping →
      convert_diagnosis_name_to_class s = .error .valueError) ∧
    (∀ rows : List (Int × String),
      (∃ r ∈ rows, r.2 ∉ diagnosis_class_name_mapping) →
      load_patient_diagnoses rows = .error .valueError) := by
  refine ⟨fun s h => convert_name_not_mem h, fun rows h => ?_⟩
  induction rows with
  | nil => obtain ⟨r, hr, _⟩ := h; cases hr
  | cons a l ih =>
    obtain ⟨r, hr, hnot⟩ := h
    unfold load_patient_diagnoses mapExcept
    rcases List.mem_cons.mp hr with rfl | hrl
    · rw [convert_name_not_mem hnot]
    · cases hc : convert_diagnosis_name_to_class a.2 with
      | error e => rw [convert_name_error_eq hc]
      | ok c =>
        have : load_patient_diagnoses l = .error .valueError := ih ⟨r, hrl, hnot⟩
        unfold load_patient_diagnoses at this
        rw [this]

/-- C5 witness: `"Flu"` is not a known diagnosis name; the lookup fails
with `ValueError` and a table containing it fails as a whole. -/
theorem c5_unknown_diagnosis_fails_witness :
    convert_diagnosis_name_to_class "Flu" = .error .valueError ∧
    load_patient_diagnoses [((101 : Int), "URTI"), ((102 : Int), "Flu")]
      = .error .valueError :=
  ⟨c5_unknown_diagnosis_fails.1 "Flu" (by decide),
   c5_unknown_diagnosis_fails.2 [((101 : Int), "URTI"), ((102 : Int), "Flu")]
     ⟨((102 : Int), "Flu"), by decide, by decide⟩⟩

/-- C6: the reference filename decodes to the expected record, and the
`"mc"` variant decodes with `num_channels = 2`. -/
theorem c6_meta_concrete :
    extract_meta_info_from_file_name "101_1b1_Al_sc_Meditron"
      = .ok ⟨101, "1b1", "Al", 1, "Meditron"⟩ ∧
    extract_meta_info_from_file_name "101_1b1_Al_mc_Meditron"
      = .ok ⟨101, "1b1", "Al", 2, "Meditron"⟩ :=
  ⟨rfl, rfl⟩

/-- C2 counterexample: `"101_1b1_Al_xx_Meditron"` has 5 fields and an
acquisition-mode token that is neither `"sc"` nor `"mc"`, yet the parser
does not fail: it maps the token to `2` and succeeds. -/
theorem c2_counterexample :
    (pySplitChar '_' "101_1b1_Al_xx_Meditron").length = 5 ∧
    ((pySplitChar '_' "101_1b1_Al_xx_Meditron")[3]? = some "xx" ∧
      "xx" ≠ "sc" ∧ "xx" ≠ "mc") ∧
    extract_meta_info_from_file_name "101_1b1_Al_xx_Meditron"
      = .ok ⟨101, "1b1", "Al", 2, "Meditron"⟩ :=
  ⟨by decide, ⟨rfl, by decide, by decide⟩, rfl⟩

/-- C2 amended: the parser succeeds exactly when the split on `'_'` has
exactly 5 fields and the first field is a valid integer literal; the
acquisition-mode field is never validated: `"sc"` maps to channel count 1
and every other token maps to 2. -/
theorem c2_meta_failure_iff (file_name : String) :
    ((∃ r, extract_meta_info_from_file_name file_name = .ok r) ↔
      ((pySplitChar '_' file_name).length = 5 ∧
        (pyInt ((pySplitChar '_' file_name)[0]?.getD "")).isSome = true)) ∧
    (∀ r, extract_meta_info_from_file_name file_name = .ok r →
      r.num_channels =
        if (pySplitChar '_' file_name)[3]? = some "sc" then 1 else 2) := by
  constructor
  · constructor
    · rintro ⟨r, hr⟩
      unfold extract_meta_info_from_file_name at hr
      split at hr
      · cases hr
      · rename_i f3 hg
        split at hr
        · rename_i h5
          split at hr
          · cases hr
          · rename_i pn hp
            exact ⟨h5, by rw [hp]; rfl⟩
        · cases hr
    · rintro ⟨h5, hs⟩
      unfold extract_meta_info_from_file_name
      split
      · rename_i hg
        have h3 : (pySplitChar '_' file_name).length ≤ 3 :=
          List.getElem?_eq_none_iff.mp hg
        omega
      · rename_i f3 hg
        rw [if_pos h5]
        split
        · rename_i hp
          rw [hp] at hs
          cases hs
        · exact ⟨_, rfl⟩
  · intro r hr
    unfold extract_meta_info_from_file_name at hr
    split at hr
    · cases hr
    · rename_i f3 hg
      split at hr
      · split at hr
        · cases hr
        · rename_i pn hp
          injection hr with hr
          subst hr
          rw [hg]
          by_cases hsc : f3 = "sc" <;> simp [hsc]
      · cases hr

/-- C2 amended witness: the success criterion and the channel mapping
instantiated at the reference filename. -/
theorem c2_meta_failure_iff_witness :
    (∃ r, extract_meta_info_from_file_name "101_1b1_Al_sc_Meditron" = .ok r) ∧
    (RecordingMetaInfo.mk 101 "1b1" "Al" 1 "Meditron").num_channels =
      (if (pySplitChar '_' "101_1b1_Al_sc_Meditron")[3]? = some "sc"
        then 1 else 2) :=
  ⟨(c2_meta_failure_iff "101_1b1_Al_sc_Meditron").1.mpr ⟨by decide, rfl⟩,
   (c2_meta_failure_iff "101_1b1_Al_sc_Meditron").2 _ rfl⟩

/-- C7: stem extraction takes the last path component, fails the
assertion when its split on `'.'` has fewer than two parts, and otherwise
rejoins all parts but the last with `'.'`; `"101_1b1_Al_sc_Meditron.wav"`
maps to `"101_1b1_Al_sc_Meditron"`. -/
theorem c7_stem_extraction (file_path : String) :
    ((pySplitChar '.' ((pySplitChar '/' file_path).getLastD "")).length < 2 →
      extract_file_name_without_extension_from_path file_path
        = .error .assertionError) ∧
    (2 ≤ (pySplitChar '.' ((pySplitChar '/' file_path).getLastD "")).length →
      extract_file_name_without_extension_from_path file_path =
        .ok (String.intercalate "."
          (pySplitChar '.' ((pySplitChar '/' file_path).getLastD "")).dropLast)) ∧
    extract_file_name_without_extension_from_path "101_1b1_Al_sc_Meditron.wav"
      = .ok "101_1b1_Al_sc_Meditron" := by
  refine ⟨?_, ?_, rfl⟩
  · intro h
    by_cases hfn : (pySplitChar '/' file_path).getLastD "" = ""
    · unfold extract_file_name_without_extension_from_path
      rw [if_pos hfn]
    · unfold extract_file_name_without_extension_from_path
      rw [if_neg hfn, if_neg (by omega)]
  · intro h
    by_cases hfn : (pySplitChar '/' file_path).getLastD "" = ""
    · rw [hfn] at h
      have h1 : (pySplitChar '.' "").length = 1 := rfl
      omega
    · unfold extract_file_name_without_extension_from_path
      rw [if_neg hfn, if_pos h]

/-- C7 witness: the success branch at the reference filename and the
failure branch at a dotless filename. -/
theorem c7_stem_extraction_witness :
    extract_file_name_without_extension_from_path "101_1b1_Al_sc_Meditron.wav" =
      .ok (String.intercalate "."
        (pySplitChar '.'
          ((pySplitChar '/' "101_1b1_Al_sc_Meditron.wav").getLastD "")).dropLast) ∧
    extract_file_name_without_extension_from_path "abc"
      = .error .assertionError :=
  ⟨(c7_stem_extraction "101_1b1_Al_sc_Meditron.wav").2.1 (by decide),
   (c7_stem_extraction "abc").1 (by decide)⟩

/-- C10: when the split on `'_'` has fewer than 4 fields the parser fails
with the `IndexError` of the `record_data_values[3]` access, which is
evaluated before the declared arity assertion. -/
theorem c10_short_split_index_error (file_name : String)
    (h : (pySplitChar '_' file_name).length < 4) :
    extract_meta_info_from_file_name file_name = .error .indexError := by
  have hg : (pySplitChar '_' file_name)[3]? = none :=
    List.getElem?_eq_none_iff.mpr (by omega)
  unfold extract_meta_info_from_file_name
  rw [hg]

/-- C10 witness: `"abc"` splits into one field and the parser fails with
`IndexError`. -/
theorem c10_short_split_index_error_witness :
    extract_meta_info_from_file_name "abc" = .error .indexError :=
  c10_short_split_index_error "abc" (by decide)

/-- A successful `mapExcept` traversal preserves the list length. -/
lemma mapExcept_ok_length {γ δ : Type} {f : γ → Except PyErr δ} :
    ∀ {l : List γ} {l' : List δ}, mapExcept f l = .ok l' → l'.length = l.length := by
  intro l
  induction l with
  | nil =>
    intro l' h
    unfold mapExcept at h
    injection h with h
    rw [← h]
    rfl
  | cons a t ih =>
    intro l' h
    unfold mapExcept at h
    split at h
    · cases h
    · split at h
      · cases h
      · rename_i b _ bs hbs
        injection h with h
        rw [← h, List.length_cons, List.length_cons, ih hbs]

/-- A successful `mapExcept` traversal maps each input position to the
same output position. -/
lemma mapExcept_ok_getD {γ δ : Type} {f : γ → Except PyErr δ} (dc : γ) (dd : δ) :
    ∀ {l : List γ} {l' : List δ}, mapExcept f l = .ok l' →
      ∀ i, i < l.length → f (l.getD i dc) = .ok (l'.getD i dd) := by
  intro l
  induction l with
  | nil =>
    intro l' h i hi
    cases hi
  | cons a t ih =>
    intro l' h i hi
    unfold mapExcept at h
    split at h
    · cases h
    · rename_i b hb
      split at h
      · cases h
      · rename_i bs hbs
        injection h with h
        rw [← h]
        cases i with
        | zero => exact hb
        | succ j =>
          rw [List.getD_cons_succ, List.getD_cons_succ]
          exact ih hbs j (by simpa using hi)

/-- `load_demographic_line` raises only the arity `AssertionError`. -/
lemma load_demographic_line_error_eq {line : String} {e : PyErr}
    (h : load_demographic_line line = .error e) : e = .assertionError := by
  unfold load_demographic_line at h
  split at h
  · cases h
  · exact (Except.error.inj h).symm

/-- A line with an arity violation anywhere makes the demographic loop
fail with `AssertionError`. -/
lemma mapExcept_demographic_error {lines : List String}
    (h : ∃ line ∈ lines, (pySplitWs line).length ≠ 6) :
    mapExcept load_demographic_line lines = .error .assertionError := by
  induction lines with
  | nil =>
    obtain ⟨l, hl, _⟩ := h
    cases hl
  | cons a ls ih =>
    obtain ⟨l, hl, hbad⟩ := h
    unfold mapExcept
    rcases List.mem_cons.mp hl with rfl | hmem
    · rw [show load_demographic_line l = .error .assertionError by
        unfold load_demographic_line
        rw [if_neg hbad]]
    · cases hla : load_demographic_line a with
      | error e =>
        rw [load_demographic_line_error_eq hla]
      | ok b =>
        rw [ih ⟨l, hmem, hbad⟩]

/-- C8: a line whose whitespace split is not exactly 6 fields makes the
whole demographic load fail with the arity `AssertionError`; a
successful load has one record per input line, in file order, each the
positional parse of its line with `patient_number` coerced to an
integer; `"101 3 M 16.4 NA NA"` parses to `patient_number = 101` with
the other five fields kept as split. -/
theorem c8_demographic_load :
    (∀ lines : List String, (∃ line ∈ lines, (pySplitWs line).length ≠ 6) →
      load_demographic_information lines = .error .assertionError) ∧
    (∀ (lines : List String) (recs : List (Patient Int)),
      load_demographic_information lines = .ok recs →
      recs.length = lines.length ∧
      ∀ i, i < lines.length →
        parse_demographic_line (lines.getD i "")
          = .ok (recs.getD i ⟨0, "", "", "", "", ""⟩)) ∧
    load_demographic_information ["101 3 M 16.4 NA NA"]
      = .ok [⟨101, "3", "M", "16.4", "NA", "NA"⟩] := by
  refine ⟨?_, ?_, rfl⟩
  · intro lines h
    unfold load_demographic_information
    rw [mapExcept_demographic_error h]
  · intro lines recs h
    unfold load_demographic_information at h
    split at h
    · cases h
    · rename_i ps hps
      have h1 : ps.length = lines.length := mapExcept_ok_length hps
      have h2 : recs.length = ps.length := mapExcept_ok_length h
      refine ⟨by omega, fun i hi => ?_⟩
      have e1 := mapExcept_ok_getD "" (⟨"", "", "", "", "", ""⟩ : Patient String)
        hps i hi
      have e2 := mapExcept_ok_getD (⟨"", "", "", "", "", ""⟩ : Patient String)
        (⟨0, "", "", "", "", ""⟩ : Patient Int) h i (by omega)
      unfold parse_demographic_line
      rw [e1]
      exact e2

/-- C8 witness: a 4-field line fails the whole load; the reference line
loads, and position 0 parses to the record with `patient_number = 101`. -/
theorem c8_demographic_load_witness :
    load_demographic_information ["101 3 M 16.4"] = .error .assertionError ∧
    parse_demographic_line ((["101 3 M 16.4 NA NA"] : List String).getD 0 "")
      = .ok (([⟨101, "3", "M", "16.4", "NA", "NA"⟩] : List (Patient Int)).getD 0
          ⟨0, "", "", "", "", ""⟩) :=
  ⟨c8_demographic_load.1 ["101 3 M 16.4"] ⟨"101 3 M 16.4", by decide, by decide⟩,
   (c8_demographic_load.2.1 ["101 3 M 16.4 NA NA"]
      [⟨101, "3", "M", "16.4", "NA", "NA"⟩] rfl).2 0 (by decide)⟩

/-- The `recording_id` column of a zip with `range' k` is `range' k`
itself. -/
lemma map_recording_id_zipWith {α β : Type} :
    ∀ (l : List (RecordingMetaInfo × (α × β))) (k : Nat),
      (List.zipWith (fun i md => RecordingRow.mk i md.1 md.2.1 md.2.2)
          (List.range' k l.length) l).map (fun r => r.recording_id)
        = List.range' k l.length := by
  intro l
  induction l with
  | nil => intro k; rfl
  | cons a t ih =>
    intro k
    rw [List.length_cons, List.range'_succ]
    simp only [List.zipWith_cons_cons, List.map_cons, ih]

/-- C9: a successful `load_recordings` has one row per discovered audio
file and its `recording_id` column is exactly `0..N-1` in enumeration
order; sub-tables of diverging lengths make the assembly fail with the
`AssertionError` (the IntegrityError of the spec) instead of
proceeding. -/
theorem c9_recordings_table :
    (∀ (α β : Type) (decode : String → α × β) (wav_file_paths : List String)
        (rows : List (RecordingRow α β)),
      load_recordings decode wav_file_paths = .ok rows →
      rows.length = wav_file_paths.length ∧
      rows.map (fun r => r.recording_id) = List.range wav_file_paths.length) ∧
    (∀ (recording_meta_info : List RecordingMetaInfo)
        (recording_data : List (Nat × Nat)),
      recording_meta_info.length ≠ recording_data.length →
      assemble_recordings recording_meta_info recording_data
        = .error .assertionError) := by
  constructor
  · intro α β decode wav_file_paths rows h
    unfold load_recordings at h
    split at h
    · cases h
    · rename_i meta hmeta
      have hml : meta.length = wav_file_paths.length := mapExcept_ok_length hmeta
      have hdl : (wav_file_paths.map decode).length = wav_file_paths.length :=
        List.length_map _ _
      unfold assemble_recordings at h
      rw [if_pos ⟨rfl, by omega⟩] at h
      injection h with h
      subst h
      have hzlen : (meta.zip (wav_file_paths.map decode)).length
          = wav_file_paths.length := by
        rw [List.length_zip]
        omega
      constructor
      · rw [List.length_zipWith, List.length_range]
        omega
      · have e1 : (List.map decode wav_file_paths).length
            = (meta.zip (List.map decode wav_file_paths)).length := by omega
        rw [e1, List.range_eq_range', List.range_eq_range',
          map_recording_id_zipWith, hzlen]
  · intro recording_meta_info recording_data hne
    unfold assemble_recordings
    rw [if_neg (fun hc => hne hc.2.symm)]

/-- C9 witness: loading the single reference file yields one row with
`recording_id` column `[0]`; assembling an empty meta table with a
one-row data table fails with the `AssertionError`. -/
theorem c9_recordings_table_witness :
    (([⟨0, ⟨101, "1b1", "Al", 1, "Meditron"⟩, 0, 0⟩] :
        List (RecordingRow Nat Nat)).length
      = (["101_1b1_Al_sc_Meditron.wav"] : List String).length ∧
    ([⟨0, ⟨101, "1b1", "Al", 1, "Meditron"⟩, 0, 0⟩] :
        List (RecordingRow Nat Nat)).map (fun r => r.recording_id)
      = List.range (["101_1b1_Al_sc_Meditron.wav"] : List String).length) ∧
    assemble_recordings [] [((0 : Nat), (0 : Nat))] = .error .assertionError :=
  ⟨c9_recordings_table.1 Nat Nat (fun _ => (0, 0))
      ["101_1b1_Al_sc_Meditron.wav"]
      [⟨0, ⟨101, "1b1", "Al", 1, "Meditron"⟩, 0, 0⟩] rfl,
   c9_recordings_table.2 [] [((0 : Nat), (0 : Nat))] (by decide)⟩

/-- C1 counterexample: with only the root directory present and the
cache key `"a/b/c"`, no file exists at the key, yet `getOrCompute` does
not create the parent directories recursively and return the computed
result — it fails with `FileNotFoundError`, because
`create_path_if_nonexistent` uses a single non-recursive `os.mkdir` on
the immediate parent `"a/b"`, whose own parent `"a"` is missing. -/
theorem c1_counterexample :
    lookupFile (⟨[[]], []⟩ : FS Nat) ["a", "b", "c"] = none ∧
    load_data_frame_with_cache (⟨[[]], []⟩ : FS Nat) 0 ["a", "b", "c"]
      = .error .fileNotFoundError :=
  ⟨rfl, rfl⟩

/-- C1 amended: if a file exists at the key, its contents are returned
with the loader not invoked; if no file exists, the loader is invoked
exactly once and only the immediate parent directory of the key is
ensured — kept if present, else created by one non-recursive `mkdir`
(which requires the grandparent directory) — after which the computed
result is serialized to the key and returned; when neither the parent
nor the grandparent directory exists, the call fails instead of
creating directories recursively. -/
theorem c1_cache_behavior {V : Type} (fs : FS V) (v : V) (key : List String) :
    (∀ w, lookupFile fs key = some w →
      load_data_frame_with_cache fs v key = .ok (fs, w, 0)) ∧
    (lookupFile fs key = none → key ∉ fs.dirs →
      key.dropLast ∈ fs.dirs →
      ∃ fs', load_data_frame_with_cache fs v key = .ok (fs', v, 1) ∧
        lookupFile fs' key = some v) ∧
    (lookupFile fs key = none → key ∉ fs.dirs →
      pathExists fs key.dropLast = false →
      key.dropLast.dropLast ∈ fs.dirs →
      key.dropLast ≠ key →
      ∃ fs', load_data_frame_with_cache fs v key = .ok (fs', v, 1) ∧
        lookupFile fs' key = some v) ∧
    (lookupFile fs key = none →
      pathExists fs key.dropLast = false →
      key.dropLast.dropLast ∉ fs.dirs →
      ∃ e, load_data_frame_with_cache fs v key = .error e) := by
  refine ⟨?_, ?_, ?_, ?_⟩
  · intro w hw
    simp [load_data_frame_with_cache, pd_read_pickle, hw]
  · intro h1 h2 h3
    refine ⟨⟨fs.dirs, (key, v) :: fs.files.filter (fun e => !(e.1 == key))⟩, ?_, ?_⟩
    · have hpe : pathExists fs key.dropLast = true := by
        simp [pathExists, h3]
      simp [load_data_frame_with_cache, create_path_if_nonexistent,
        pd_to_pickle, h1, h2, h3, hpe]
    · simp [lookupFile, List.find?]
  · intro h1 h2 h3 h4 h5
    have hne : key ≠ key.dropLast := fun h => h5 h.symm
    refine ⟨⟨key.dropLast :: fs.dirs,
      (key, v) :: fs.files.filter (fun e => !(e.1 == key))⟩, ?_, ?_⟩
    · simp [load_data_frame_with_cache, create_path_if_nonexistent,
        os_mkdir, pd_to_pickle, h1, h2, h3, h4, hne]
    · simp [lookupFile, List.find?]
  · intro h1 h2 h3
    cases hlp : lookupFile fs key.dropLast.dropLast with
    | some w =>
      refine ⟨.notADirectoryError, ?_⟩
      simp [load_data_frame_with_cache, create_path_if_nonexistent,
        os_mkdir, h1, h2, h3, hlp]
    | none =>
      refine ⟨.fileNotFoundError, ?_⟩
      simp [load_data_frame_with_cache, create_path_if_nonexistent,
        os_mkdir, h1, h2, h3, hlp]

/-- C1 amended witness: the four branches at concrete filesystems — a
cache hit, a miss with the parent directory present, a miss where one
`mkdir` creates the parent, and a miss where the grandparent is also
absent and the call fails. -/
theorem c1_cache_behavior_witness :
    load_data_frame_with_cache (⟨[[]], [(["t", "x.pkl"], 5)]⟩ : FS Nat) 7
        ["t", "x.pkl"]
      = .ok (⟨[[]], [(["t", "x.pkl"], 5)]⟩, 5, 0) ∧
    (∃ fs', load_data_frame_with_cache (⟨[[], ["t"]], []⟩ : FS Nat) 7
        ["t", "x.pkl"]
      = .ok (fs', 7, 1) ∧ lookupFile fs' ["t", "x.pkl"] = some 7) ∧
    (∃ fs', load_data_frame_with_cache (⟨[[]], []⟩ : FS Nat) 7 ["t", "x.pkl"]
      = .ok (fs', 7, 1) ∧ lookupFile fs' ["t", "x.pkl"] = some 7) ∧
    (∃ e, load_data_frame_with_cache (⟨[[]], []⟩ : FS Nat) 7 ["a", "b", "c"]
      = .error e) :=
  ⟨(c1_cache_behavior (⟨[[]], [(["t", "x.pkl"], 5)]⟩ : FS Nat) 7
      ["t", "x.pkl"]).1 5 rfl,
   (c1_cache_behavior (⟨[[], ["t"]], []⟩ : FS Nat) 7 ["t", "x.pkl"]).2.1
     rfl (by decide) (by decide),
   (c1_cache_behavior (⟨[[]], []⟩ : FS Nat) 7 ["t", "x.pkl"]).2.2.1
     rfl (by decide) rfl (by decide) (by decide),
   (c1_cache_behavior (⟨[[]], []⟩ : FS Nat) 7 ["a", "b", "c"]).2.2.2
     rfl rfl (by decide)⟩

end RespiratorySounds
